import Mathlib

/-!
Verification of the memoization core of `cached_function` (memoization.hpp,
2014 edition with registry — the header whose `disk` constructor appends
`cache` to the supplied path).  The embedding models `std::size_t` as `Nat`
reduced modulo `2 ^ 64`, the in-memory store `std::map<std::size_t,
boost::any>` as an association list over one value type, and the file system
seen by the `disk` store as an association list from full path strings to the
(deserialized) values their files hold.  Exceptions thrown by wrapped
functions are modelled with `Except`.
-/

namespace Memoization

/-- Modulus of `std::size_t` on the 64-bit platforms the code targets. -/
def W : Nat := 2 ^ 64

/-- One step of `boost::hash_combine` (boost 1.55):
`seed ^= hash_value(v) + 0x9e3779b9 + (seed << 6) + (seed >> 2)`, all
arithmetic wrapping modulo `2 ^ 64`.  The second argument is the already
computed `hash_value` of the folded value. -/
def hash_combine (seed h : Nat) : Nat :=
  seed ^^^ ((h + 0x9e3779b9 + seed * 64 + seed / 4) % W)

/-- `boost::hash` of an unsigned integral value: the value itself, as a
`std::size_t`. -/
def hashNat (n : Nat) : Nat := n % W

/-- `boost::hash<std::string>`: `hash_range` over the characters, i.e. a
`hash_combine` fold over the character codes starting from seed `0`. -/
def hashString (s : String) : Nat :=
  s.data.foldl (fun sd c => hash_combine sd c.toNat) 0

/-- `detail::hash_combine(seed, t, params...)`: fold every hashed value into
the running seed, in order. -/
def hash_combine_fold (seed : Nat) (hs : List Nat) : Nat :=
  hs.foldl hash_combine seed

/-- The fingerprint computed by the identifier overloads of both stores:
`detail::hash_combine(0, descr, params...)` — the identifier is folded first,
then each argument in call order. -/
def derive (descr : String) (args : List Nat) : Nat :=
  hash_combine_fold (hash_combine 0 (hashString descr)) (args.map hashNat)

/-- State of `memory::m_data` restricted to entries holding values of one
type `α` (the `boost::any` type tags play no role in the claims below). -/
abbrev MemState (α : Type) := List (Nat × α)

/-- `memory::operator()(seed, f, params...)`: look the seed up in `m_data`;
on a hit return the stored value; on a miss invoke `f`, insert the result
under the seed and return it.  The third component counts how often `f` was
invoked during the call (`0` on a hit, `1` on a miss). -/
def memory_call_seed (st : MemState α) (seed : Nat) (f : List Nat → α)
    (args : List Nat) : α × MemState α × Nat :=
  match st.lookup seed with
  | some v => (v, st, 0)
  | none =>
    let ret := f args
    (ret, (seed, ret) :: st, 1)

/-- The fingerprint actually used by `memory::operator()(descr, seed, f, ...)`:
the overload first executes `boost::hash_combine(seed, descr)` and only then
delegates to the seed overload. -/
def memory_seed_key (descr : String) (seed : Nat) : Nat :=
  hash_combine seed (hashString descr)

/-- `memory::operator()(descr, seed, f, params...)`: combine the identifier
into the caller-supplied seed, then delegate to the seed overload. -/
def memory_call_id_seed (st : MemState α) (descr : String) (seed : Nat)
    (f : List Nat → α) (args : List Nat) : α × MemState α × Nat :=
  memory_call_seed st (memory_seed_key descr seed) f args

/-- `memory::operator()(descr, f, params...)`: derive the fingerprint from
identifier and arguments, then delegate to the seed overload. -/
def memory_call_id (st : MemState α) (descr : String) (f : List Nat → α)
    (args : List Nat) : α × MemState α × Nat :=
  memory_call_seed st (derive descr args) f args

/-- `memory::operator()(f, params...)`: the identifier-less overload
delegates with identifier `"anonymous"`. -/
def memory_call_anon (st : MemState α) (f : List Nat → α) (args : List Nat) :
    α × MemState α × Nat :=
  memory_call_id st "anonymous" f args

/-- Joining a `boost::filesystem::path` with a relative component inserts a
separator. -/
def path_join (a b : String) : String := a ++ "/" ++ b

/-- `disk::disk(path)`: the member `m_path` is the supplied path with `cache`
appended, created on construction.  The path argument defaults to the current
working directory. -/
def disk_root (path : String) : String := path_join path "cache"

/-- `disk::disk()` with the argument omitted: the default argument is
`fs::current_path()`. -/
def disk_root_default (cwd : String) : String := disk_root cwd

/-- The file name built by `disk::operator()`:
`descr + "-" + lexical_cast<std::string>(seed)` (decimal rendering). -/
def disk_file_name (descr : String) (seed : Nat) : String :=
  descr ++ "-" ++ toString seed

/-- The full path of a cache record: `(m_path / fn).string()`, with `root`
standing for the store's `m_path`. -/
def disk_entry_path (root descr : String) (seed : Nat) : String :=
  path_join root (disk_file_name descr seed)

/-- The part of the file system the `disk` store sees: full path strings
mapped to the values whose serialization the files hold (round-trip fidelity
of the binary archive is the serialization contract). -/
abbrev DiskFS (α : Type) := List (String × α)

/-- `disk::operator()(descr, seed, f, params...)`: build the record path; if
the file exists, deserialize and return its contents; otherwise invoke `f`,
write the result to the file and return it.  The third component counts the
invocations of `f` during the call. -/
def disk_call_seed (root : String) (fs : DiskFS α) (descr : String)
    (seed : Nat) (f : List Nat → α) (args : List Nat) : α × DiskFS α × Nat :=
  let fn := disk_entry_path root descr seed
  match fs.lookup fn with
  | some v => (v, fs, 0)
  | none =>
    let ret := f args
    (ret, (fn, ret) :: fs, 1)

/-- `disk::operator()(descr, f, params...)`: derive the fingerprint from
identifier and arguments, then delegate to the seed overload. -/
def disk_call_id (root : String) (fs : DiskFS α) (descr : String)
    (f : List Nat → α) (args : List Nat) : α × DiskFS α × Nat :=
  disk_call_seed root fs descr (derive descr args) f args

/-- `disk::operator()(f, params...)`: the identifier-less overload delegates
with identifier `"anonymous"`. -/
def disk_call_anon (root : String) (fs : DiskFS α) (f : List Nat → α)
    (args : List Nat) : α × DiskFS α × Nat :=
  disk_call_id root fs "anonymous" f args

/-- `memory::operator()(seed, f, params...)` with a wrapped function that may
throw, modelled in `Except`: the C++ call has no handler, so an exception
raised by `f` propagates before `m_data[seed] = ret` executes and the table
is left untouched. -/
def memory_call_seedE (st : MemState α) (seed : Nat)
    (f : List Nat → Except ε α) (args : List Nat) :
    Except ε α × MemState α :=
  match st.lookup seed with
  | some v => (.ok v, st)
  | none =>
    match f args with
    | .error e => (.error e, st)
    | .ok ret => (.ok ret, (seed, ret) :: st)

/-- The identifier overload of `memory` over a throwing function. -/
def memory_call_idE (st : MemState α) (descr : String)
    (f : List Nat → Except ε α) (args : List Nat) :
    Except ε α × MemState α :=
  memory_call_seedE st (derive descr args) f args

/-- `disk::operator()(descr, seed, f, params...)` over a throwing function:
an exception raised by `f` propagates before the output file is opened, so
the file system is left untouched. -/
def disk_call_seedE (root : String) (fs : DiskFS α) (descr : String)
    (seed : Nat) (f : List Nat → Except ε α) (args : List Nat) :
    Except ε α × DiskFS α :=
  let fn := disk_entry_path root descr seed
  match fs.lookup fn with
  | some v => (.ok v, fs)
  | none =>
    match f args with
    | .error e => (.error e, fs)
    | .ok ret => (.ok ret, (fn, ret) :: fs)

/-- The identifier overload of `disk` over a throwing function. -/
def disk_call_idE (root : String) (fs : DiskFS α) (descr : String)
    (f : List Nat → Except ε α) (args : List Nat) :
    Except ε α × DiskFS α :=
  disk_call_seedE root fs descr (derive descr args) f args

/-- Events on the error/event channel.  `hit` and `miss` are the two
`BOOST_LOG_TRIVIAL(info)` emissions of `disk::operator()`.  `persistFailure`
is Modelled from the spec: the persistence-failure signal the spec requires
on a failed `store`; the code contains no emission of it, and having the
constructor in the event type makes that absence expressible. -/
inductive Event where
  | hit (loc : String)
  | miss (loc : String)
  | persistFailure (loc : String)
  deriving DecidableEq

/-- `disk::operator()(descr, seed, f, params...)` instrumented with the
events it emits: exactly one `hit` log line on a hit, exactly one `miss` log
line on a miss, and nothing else on any path — in particular the write of
the output file is performed with no status check and no further emission. -/
def disk_call_seed_ev (root : String) (fs : DiskFS α) (descr : String)
    (seed : Nat) (f : List Nat → α) (args : List Nat) :
    α × DiskFS α × List Event :=
  let fn := disk_entry_path root descr seed
  match fs.lookup fn with
  | some v => (v, fs, [Event.hit fn])
  | none =>
    let ret := f args
    (ret, (fn, ret) :: fs, [Event.miss fn])

/-- The per-`(Cache, Function)` static table
`registry<Cache, Function>::data`: function identities (modelled as the
`Nat` keys under which an interpretation supplies the actual callables)
mapped to the (identifier, store pointer) pair of the first registration. -/
abbrev Registry := List (Nat × (String × Nat))

/-- The wrapper `memoize<Cache, Function>`: a store reference, an identifier
and the wrapped function, nothing else. -/
structure Memoize where
  ptr : Nat
  id : String
  fkey : Nat

/-- `make_memoized(fc, id, f)`: insert `(id, &fc)` into the registry only
when `f` has no entry yet, and in every case return a fresh wrapper built
from the arguments. -/
def make_memoized (reg : Registry) (fcPtr : Nat) (id : String) (fkey : Nat) :
    Registry × Memoize :=
  match reg.lookup fkey with
  | some _ => (reg, ⟨fcPtr, id, fkey⟩)
  | none => ((fkey, (id, fcPtr)) :: reg, ⟨fcPtr, id, fkey⟩)

/-- A heap of `memory` stores, addressed by the pointers the registry holds. -/
abbrev Heap (α : Type) := Nat → MemState α

/-- `memoize::operator()(args...)` for `Cache = memory`: delegate to the
identifier overload of the referenced store, `m_fc(m_id, m_func, args...)`,
updating that store in the heap. -/
def memoize_invoke (w : Memoize) (impl : Nat → List Nat → α) (σ : Heap α)
    (args : List Nat) : α × Heap α :=
  let r := memory_call_id (σ w.ptr) w.id (impl w.fkey) args
  (r.1, fun q => if q = w.ptr then r.2.1 else σ q)

/-- The error raised by `memoized` when the function is absent from the
registry: `std::runtime_error("memoize function is not registered with a
cache")`. -/
inductive RegError where
  | notRegistered
  deriving DecidableEq

/-- `memoized<Cache>(f, args...)` for `Cache = memory`: look `f` up in the
registry; throw when absent; otherwise build a wrapper from the stored
(identifier, store pointer) pair and invoke it on `args`. -/
def memoized (reg : Registry) (impl : Nat → List Nat → α) (σ : Heap α)
    (fkey : Nat) (args : List Nat) : Except RegError (α × Heap α) :=
  match reg.lookup fkey with
  | none => .error RegError.notRegistered
  | some (id, fc) => .ok (memoize_invoke ⟨fc, id, fkey⟩ impl σ args)

/-- Auxiliary: an association list with no binding for `s` has no entry whose
key is `s`. -/
theorem lookup_none_countP {α : Type} (s : String) :
    ∀ l : List (String × α), l.lookup s = none → (l.countP fun e => s == e.1) = 0 := by
  intro l
  induction l with
  | nil => intro _; rfl
  | cons p t ih =>
    intro h
    obtain ⟨k, v⟩ := p
    rw [List.countP_cons]
    cases hk : s == k with
    | true => simp [List.lookup_cons, hk] at h
    | false =>
      have ht := ih (by simpa [List.lookup_cons, hk] using h)
      simp [hk, ht]

/-- C1: idempotent caching.  Starting from a store holding no entry for the
fingerprint of `(descr, args)`, two invocations of the wrapper bound to the
identifier and function both return `f args`, invoke `f` at most once in
total, and — for the durable store — leave exactly one cache file for that
fingerprint.  Holds for both the volatile (`memory`) and durable (`disk`)
store. -/
theorem idempotent_caching {α : Type} (st : MemState α) (fs : DiskFS α)
    (root descr : String) (f : List Nat → α) (args : List Nat)
    (hm : st.lookup (derive descr args) = none)
    (hd : fs.lookup (disk_entry_path root descr (derive descr args)) = none) :
    ((memory_call_id st descr f args).1 = f args ∧
     (memory_call_id (memory_call_id st descr f args).2.1 descr f args).1 = f args ∧
     (memory_call_id st descr f args).2.2 +
       (memory_call_id (memory_call_id st descr f args).2.1 descr f args).2.2 ≤ 1) ∧
    ((disk_call_id root fs descr f args).1 = f args ∧
     (disk_call_id root (disk_call_id root fs descr f args).2.1 descr f args).1 = f args ∧
     (disk_call_id root fs descr f args).2.2 +
       (disk_call_id root (disk_call_id root fs descr f args).2.1 descr f args).2.2 ≤ 1 ∧
     ((disk_call_id root (disk_call_id root fs descr f args).2.1 descr f args).2.1.countP
        fun e => disk_entry_path root descr (derive descr args) == e.1) = 1) := by
  have h0 := lookup_none_countP (disk_entry_path root descr (derive descr args)) fs hd
  simp [memory_call_id, memory_call_seed, hm, disk_call_id, disk_call_seed, hd,
        List.lookup_cons, List.countP_cons, h0]

/-- C1 witness: wrapping a function returning `55` (`fib 10`) under
identifier `"fib"` over empty stores and calling it twice. -/
theorem idempotent_caching_witness :
    ((memory_call_id ([] : MemState Nat) "fib" (fun _ => 55) [10]).1 = 55 ∧
     (memory_call_id (memory_call_id ([] : MemState Nat) "fib" (fun _ => 55) [10]).2.1
        "fib" (fun _ => 55) [10]).1 = 55 ∧
     (memory_call_id ([] : MemState Nat) "fib" (fun _ => 55) [10]).2.2 +
       (memory_call_id (memory_call_id ([] : MemState Nat) "fib" (fun _ => 55) [10]).2.1
          "fib" (fun _ => 55) [10]).2.2 ≤ 1) ∧
    ((disk_call_id "r" ([] : DiskFS Nat) "fib" (fun _ => 55) [10]).1 = 55 ∧
     (disk_call_id "r" (disk_call_id "r" ([] : DiskFS Nat) "fib" (fun _ => 55) [10]).2.1
        "fib" (fun _ => 55) [10]).1 = 55 ∧
     (disk_call_id "r" ([] : DiskFS Nat) "fib" (fun _ => 55) [10]).2.2 +
       (disk_call_id "r" (disk_call_id "r" ([] : DiskFS Nat) "fib" (fun _ => 55) [10]).2.1
          "fib" (fun _ => 55) [10]).2.2 ≤ 1 ∧
     ((disk_call_id "r" (disk_call_id "r" ([] : DiskFS Nat) "fib" (fun _ => 55) [10]).2.1
          "fib" (fun _ => 55) [10]).2.1.countP
        fun e => disk_entry_path "r" "fib" (derive "fib" [10]) == e.1) = 1) :=
  idempotent_caching [] [] "r" "fib" (fun _ => 55) [10] rfl rfl

/-- C2 counterexample: a durable store constructed with the explicit path
`"/data"` does not place its records directly inside `"/data"` — the
constructor appends the `cache` component to every supplied path, not only
to the omitted default, so the record for `("f", 5)` lives at
`"/data/cache/f-5"`, not at `"/data/f-5"`. -/
theorem disk_root_not_supplied_directory :
    disk_root "/data" ≠ "/data" ∧
    disk_entry_path (disk_root "/data") "f" 5 = "/data/cache/f-5" ∧
    disk_entry_path (disk_root "/data") "f" 5 ≠ path_join "/data" (disk_file_name "f" 5) := by
  refine ⟨by decide, by decide, by decide⟩

/-- C2 amended: the entry for `(descr, seed)` is the single file named
`descr-<seed rendered in decimal>` placed directly (no sharding) inside the
store root, and the root is always the `cache` subdirectory of the path
supplied at construction, the supplied path defaulting to the current
working directory when omitted. -/
theorem disk_record_location {α : Type} (path cwd descr : String) (seed : Nat) :
    disk_root path = path_join path "cache" ∧
    disk_root_default cwd = path_join cwd "cache" ∧
    disk_entry_path (disk_root path) descr seed =
      path_join (path_join path "cache") (descr ++ "-" ++ toString seed) ∧
    (∀ (fs : DiskFS α) (f : List Nat → α) (args : List Nat),
        fs.lookup (disk_entry_path (disk_root path) descr seed) = none →
        ((disk_call_seed (disk_root path) fs descr seed f args).2.1.countP
          fun e => disk_entry_path (disk_root path) descr seed == e.1) = 1) := by
  refine ⟨rfl, rfl, rfl, ?_⟩
  intro fs f args h
  have h0 := lookup_none_countP (disk_entry_path (disk_root path) descr seed) fs h
  simp [disk_call_seed, h, List.countP_cons, h0]

/-- C2 witness: the amended record location evaluated at path `"p"`,
identifier `"f"`, fingerprint `3`, over an empty file system. -/
theorem disk_record_location_witness :
    disk_root "p" = path_join "p" "cache" ∧
    disk_root_default "c" = path_join "c" "cache" ∧
    disk_entry_path (disk_root "p") "f" 3 =
      path_join (path_join "p" "cache") ("f" ++ "-" ++ toString 3) ∧
    ((disk_call_seed (disk_root "p") ([] : DiskFS Nat) "f" 3 (fun _ => 0) []).2.1.countP
      fun e => disk_entry_path (disk_root "p") "f" 3 == e.1) = 1 :=
  have h := @disk_record_location Nat "p" "c" "f" 3
  ⟨h.1, h.2.1, h.2.2.1, h.2.2.2 [] (fun _ => 0) [] rfl⟩

/-- C3 counterexample: the volatile store's identifier+seed overload does
not use the caller-supplied seed unchanged — it first hash-combines the
identifier into it.  With seed `0` and identifier `"f"` the key actually
consulted differs from `0`: a store holding `42` exactly at fingerprint `0`
misses and recomputes `7`, whereas the seed-only overload at `0` hits and
returns `42`. -/
theorem explicit_seed_not_unchanged_in_memory :
    memory_seed_key "f" 0 ≠ 0 ∧
    (memory_call_id_seed [((0 : Nat), (42 : Nat))] "f" 0 (fun _ => 7) []).1 = 7 ∧
    (memory_call_seed [((0 : Nat), (42 : Nat))] 0 (fun _ => 7) []).1 = 42 := by
  refine ⟨by decide, by decide, by decide⟩

/-- C3 amended: the durable store's seed overload uses the caller-supplied
seed unchanged — neither the identifier nor the arguments are hashed, so a
second call with the same identifier and seed but different function and
arguments still hits the first entry; the volatile store's seed-only
overload likewise looks up exactly the supplied seed, but its
identifier+seed overload first hash-combines the identifier into the seed. -/
theorem explicit_seed_routing {α : Type} :
    (∀ (st : MemState α) (descr : String) (seed : Nat) (f : List Nat → α) (args : List Nat),
        memory_call_id_seed st descr seed f args =
          memory_call_seed st (hash_combine seed (hashString descr)) f args) ∧
    (∀ (st : MemState α) (seed : Nat) (v : α) (f : List Nat → α) (args : List Nat),
        st.lookup seed = some v → (memory_call_seed st seed f args).1 = v) ∧
    (∀ (root : String) (fs : DiskFS α) (descr : String) (seed : Nat)
        (f g : List Nat → α) (a1 a2 : List Nat),
        fs.lookup (disk_entry_path root descr seed) = none →
        (disk_call_seed root (disk_call_seed root fs descr seed f a1).2.1
          descr seed g a2).1 = f a1) := by
  refine ⟨fun _ _ _ _ _ => rfl, ?_, ?_⟩
  · intro st seed v f args h
    simp [memory_call_seed, h]
  · intro root fs descr seed f g a1 a2 h
    simp [disk_call_seed, h, List.lookup_cons]

/-- C3 witness: the amended routing at concrete stores — a volatile hit at
the unchanged seed `4`, and a durable second call at seed `0` returning the
first call's value although function and arguments changed. -/
theorem explicit_seed_routing_witness :
    memory_call_id_seed ([] : MemState Nat) "f" 0 (fun _ => 7) [] =
      memory_call_seed [] (hash_combine 0 (hashString "f")) (fun _ => 7) [] ∧
    (memory_call_seed [((4 : Nat), (8 : Nat))] 4 (fun _ => 7) []).1 = 8 ∧
    (disk_call_seed "r" ((disk_call_seed "r" ([] : DiskFS Nat) "f" 0 (fun _ => 1) []).2.1)
      "f" 0 (fun _ => 2) []).1 = 1 :=
  ⟨(@explicit_seed_routing Nat).1 [] "f" 0 (fun _ => 7) [],
   (@explicit_seed_routing Nat).2.1 [(4, 8)] 4 8 (fun _ => 7) [] rfl,
   (@explicit_seed_routing Nat).2.2 "r" [] "f" 0 (fun _ => 1) (fun _ => 2) [] [] rfl⟩

/-- C4: first registration wins.  When a function identity is already
present in the registry, a later `make_memoized` with any other store
pointer and identifier leaves the registry — and in particular the stored
(identifier, store) pair — unchanged. -/
theorem registry_first_registration_wins (reg : Registry) (fcPtr2 : Nat)
    (id2 : String) (fkey : Nat) (pr : String × Nat)
    (h : reg.lookup fkey = some pr) :
    (make_memoized reg fcPtr2 id2 fkey).1 = reg ∧
    (make_memoized reg fcPtr2 id2 fkey).1.lookup fkey = some pr := by
  simp [make_memoized, h]

/-- C4 witness: re-registering function `1` (already bound to
`("fib", store 0)`) under `("other", store 9)` changes nothing. -/
theorem registry_first_wins_witness :
    (make_memoized [(1, ("fib", 0))] 9 "other" 1).1 = [(1, ("fib", 0))] ∧
    (make_memoized [(1, ("fib", 0))] 9 "other" 1).1.lookup 1 = some ("fib", 0) :=
  registry_first_registration_wins [(1, ("fib", 0))] 9 "other" 1 ("fib", 0) rfl

/-- C5: `memoized` on an unregistered function identity fails with the
not-registered error; on a registered one it succeeds and equals invoking a
wrapper constructed from the stored (identifier, store) pair. -/
theorem memoized_registry_dispatch {α : Type} :
    (∀ (reg : Registry) (impl : Nat → List Nat → α) (σ : Heap α) (fkey : Nat)
        (args : List Nat),
        reg.lookup fkey = none →
        memoized reg impl σ fkey args = Except.error RegError.notRegistered) ∧
    (∀ (reg : Registry) (impl : Nat → List Nat → α) (σ : Heap α) (fkey fc : Nat)
        (id : String) (args : List Nat),
        reg.lookup fkey = some (id, fc) →
        memoized reg impl σ fkey args =
          Except.ok (memoize_invoke ⟨fc, id, fkey⟩ impl σ args)) := by
  constructor
  · intro reg impl σ fkey args h
    simp [memoized, h]
  · intro reg impl σ fkey fc id args h
    simp [memoized, h]

/-- C5 witness: calling `memoized` on function `1` against an empty registry
throws, and against a registry binding `1` to `("fib", store 0)` it equals
the invocation of the reconstructed wrapper. -/
theorem memoized_registry_dispatch_witness :
    memoized ([] : Registry) (fun _ _ => (0 : Nat)) (fun _ => []) 1 [] =
      Except.error RegError.notRegistered ∧
    memoized [(1, ("fib", 0))] (fun _ _ => (5 : Nat)) (fun _ => []) 1 [] =
      Except.ok (memoize_invoke ⟨0, "fib", 1⟩ (fun _ _ => 5) (fun _ => []) []) :=
  ⟨(@memoized_registry_dispatch Nat).1 [] (fun _ _ => 0) (fun _ => []) 1 [] rfl,
   (@memoized_registry_dispatch Nat).2 [(1, ("fib", 0))] (fun _ _ => 5) (fun _ => []) 1 0
     "fib" [] rfl⟩

/-- C6: wrapped-function failures pass through unmodified and no cache write
occurs — on a miss whose computation raises `e`, both stores return exactly
`e` and their entry sets are exactly what they were before the call. -/
theorem wrapped_error_passthrough {α ε : Type} :
    (∀ (st : MemState α) (seed : Nat) (f : List Nat → Except ε α) (args : List Nat) (e : ε),
        st.lookup seed = none → f args = Except.error e →
        memory_call_seedE st seed f args = (Except.error e, st)) ∧
    (∀ (root : String) (fs : DiskFS α) (descr : String) (seed : Nat)
        (f : List Nat → Except ε α) (args : List Nat) (e : ε),
        fs.lookup (disk_entry_path root descr seed) = none → f args = Except.error e →
        disk_call_seedE root fs descr seed f args = (Except.error e, fs)) := by
  constructor
  · intro st seed f args e h hf
    simp [memory_call_seedE, h, hf]
  · intro root fs descr seed f args e h hf
    simp [disk_call_seedE, h, hf]

/-- C6 witness: a function that always raises `0`, called through both
stores on empty state. -/
theorem wrapped_error_passthrough_witness :
    memory_call_seedE ([] : MemState Nat) 0 (fun _ => Except.error (0 : Nat)) [] =
      (Except.error 0, []) ∧
    disk_call_seedE "r" ([] : DiskFS Nat) "f" 0 (fun _ => Except.error (0 : Nat)) [] =
      (Except.error 0, []) :=
  ⟨(@wrapped_error_passthrough Nat Nat).1 [] 0 (fun _ => Except.error 0) [] 0 rfl rfl,
   (@wrapped_error_passthrough Nat Nat).2 "r" [] "f" 0 (fun _ => Except.error 0) [] 0 rfl rfl⟩

/-- C7: the durable store's call emits no persistence-failure event on any
path — the event channel of `disk::operator()` carries only the hit and miss
log lines, so the reporting of a failed `store` that the spec requires does
not exist in the code. -/
theorem no_persistence_failure_event {α : Type} (root : String) (fs : DiskFS α)
    (descr : String) (seed : Nat) (f : List Nat → α) (args : List Nat) (loc : String) :
    Event.persistFailure loc ∉ (disk_call_seed_ev root fs descr seed f args).2.2 := by
  cases h : fs.lookup (disk_entry_path root descr seed) with
  | some v => simp [disk_call_seed_ev, h]
  | none => simp [disk_call_seed_ev, h]

/-- C7 witness: a concrete miss emits no persistence-failure event. -/
theorem no_persistence_failure_event_witness :
    Event.persistFailure "p" ∉
      (disk_call_seed_ev "r" ([] : DiskFS Nat) "f" 0 (fun _ => 0) []).2.2 :=
  no_persistence_failure_event "r" [] "f" 0 (fun _ => 0) [] "p"

/-- C8 counterexample: the universal order-sensitivity claim is false — for
identifier `"f"` there are two distinct argument values whose swap yields
the same fingerprint under the `hash_combine` fold. -/
theorem order_swap_collision :
    (2021452014981254018 : Nat) ≠ 9742159826763222147 ∧
    derive "f" [2021452014981254018, 9742159826763222147] =
      derive "f" [9742159826763222147, 2021452014981254018] := by
  constructor
  · decide
  · decide

/-- C8 amended: the spec's concrete instance of order sensitivity holds —
swapping the arguments `1` and `2` under identifier `"f"` changes the
fingerprint. -/
theorem order_sensitivity_concrete :
    derive "f" [1, 2] ≠ derive "f" [2, 1] := by decide

/-- C9: cache entries are immutable.  A call whose fingerprint hits returns
exactly the stored value and leaves the store untouched, and no call —
hit or miss, at any fingerprint — updates or deletes an existing entry, in
either store. -/
theorem cache_entry_immutable {α : Type} :
    (∀ (st : MemState α) (k : Nat) (v : α) (f : List Nat → α) (args : List Nat),
        st.lookup k = some v → memory_call_seed st k f args = (v, st, 0)) ∧
    (∀ (st : MemState α) (k : Nat) (v : α) (seed : Nat) (f : List Nat → α) (args : List Nat),
        st.lookup k = some v → (memory_call_seed st seed f args).2.1.lookup k = some v) ∧
    (∀ (fs : DiskFS α) (root descr : String) (seed : Nat) (w : α)
        (f : List Nat → α) (args : List Nat),
        fs.lookup (disk_entry_path root descr seed) = some w →
        disk_call_seed root fs descr seed f args = (w, fs, 0)) ∧
    (∀ (fs : DiskFS α) (root descr : String) (seed : Nat) (pn : String) (u : α)
        (f : List Nat → α) (args : List Nat),
        fs.lookup pn = some u →
        (disk_call_seed root fs descr seed f args).2.1.lookup pn = some u) := by
  refine ⟨?_, ?_, ?_, ?_⟩
  · intro st k v f args h
    simp [memory_call_seed, h]
  · intro st k v seed f args h
    cases hs : st.lookup seed with
    | some x => simp [memory_call_seed, hs, h]
    | none =>
      have hne : k ≠ seed := by
        rintro rfl
        rw [h] at hs
        exact Option.noConfusion hs
      simp [memory_call_seed, hs, List.lookup_cons, beq_eq_false_iff_ne.mpr hne, h]
  · intro fs root descr seed w f args h
    simp [disk_call_seed, h]
  · intro fs root descr seed pn u f args h
    cases hs : fs.lookup (disk_entry_path root descr seed) with
    | some x => simp [disk_call_seed, hs, h]
    | none =>
      have hne : pn ≠ disk_entry_path root descr seed := by
        rintro rfl
        rw [h] at hs
        exact Option.noConfusion hs
      simp [disk_call_seed, hs, List.lookup_cons, beq_eq_false_iff_ne.mpr hne, h]

/-- C9 witness: hits return the stored values `1` and `2` unchanged, and
entries survive unrelated calls, in both stores. -/
theorem cache_entry_immutable_witness :
    memory_call_seed [((5 : Nat), (1 : Nat))] 5 (fun _ => 9) [] = (1, [(5, 1)], 0) ∧
    (memory_call_seed [((5 : Nat), (1 : Nat))] 7 (fun _ => 9) []).2.1.lookup 5 = some 1 ∧
    disk_call_seed "r" [(disk_entry_path "r" "f" 3, (2 : Nat))] "f" 3 (fun _ => 9) [] =
      (2, [(disk_entry_path "r" "f" 3, 2)], 0) ∧
    (disk_call_seed "r" [("p", (2 : Nat))] "f" 3 (fun _ => 9) []).2.1.lookup "p" = some 2 :=
  ⟨(@cache_entry_immutable Nat).1 [(5, 1)] 5 1 (fun _ => 9) [] (by decide),
   (@cache_entry_immutable Nat).2.1 [(5, 1)] 5 1 7 (fun _ => 9) [] (by decide),
   (@cache_entry_immutable Nat).2.2.1 [(disk_entry_path "r" "f" 3, 2)] "r" "f" 3 2
     (fun _ => 9) [] (by decide),
   (@cache_entry_immutable Nat).2.2.2 [("p", 2)] "r" "f" 3 "p" 2 (fun _ => 9) [] (by decide)⟩

/-- C10: omitting the identifier is exactly invoking the store with the
identifier `"anonymous"` — same fingerprint, same cache entry, same result
and final state, for both stores. -/
theorem anonymous_identifier_default {α : Type} :
    (∀ (st : MemState α) (f : List Nat → α) (args : List Nat),
        memory_call_anon st f args = memory_call_id st "anonymous" f args) ∧
    (∀ (root : String) (fs : DiskFS α) (f : List Nat → α) (args : List Nat),
        disk_call_anon root fs f args = disk_call_id root fs "anonymous" f args) :=
  ⟨fun _ _ _ => rfl, fun _ _ _ _ => rfl⟩

end Memoization
